import Mathlib

/-!
# Verification of the smooth-write note core

Shallow embedding of the note persistence and debounced auto-save engine:
the `Note` entity (`src/core/note.py`), the storage manager
(`src/core/storage.py`), the auto-save scheduler (`src/core/auto_save.py`)
and the search filter of the notes list (`src/ui/notes_list.py`).
-/

set_option maxRecDepth 100000

/-! ## Timestamps

Python `datetime.datetime` values as used by the code: naive timestamps
with microsecond precision.  `isoformat` and `fromisoformat` model the
standard-library codec, restricted to the exact formats `isoformat`
emits (`YYYY-MM-DDTHH:MM:SS` with an optional 6-digit `.ffffff` part,
omitted when `microsecond = 0`). -/

structure PyDateTime where
  year : Nat
  month : Nat
  day : Nat
  hour : Nat
  minute : Nat
  second : Nat
  microsecond : Nat
deriving DecidableEq

namespace PyDateTime

/-- The field bounds Python's `datetime` constructor enforces. -/
def Valid (t : PyDateTime) : Prop :=
  1 ≤ t.year ∧ t.year ≤ 9999 ∧ 1 ≤ t.month ∧ t.month ≤ 12 ∧
  1 ≤ t.day ∧ t.day ≤ 31 ∧ t.hour ≤ 23 ∧ t.minute ≤ 59 ∧
  t.second ≤ 59 ∧ t.microsecond ≤ 999999

instance (t : PyDateTime) : Decidable t.Valid := by
  unfold Valid; infer_instance

/-- Mixed-radix encoding of a timestamp; on `Valid` timestamps it is
order-isomorphic to Python's field-lexicographic `datetime` comparison,
so it serves as the sort key for `modified_at` ordering. -/
def key (t : PyDateTime) : Nat :=
  ((((((t.year * 13 + t.month) * 32 + t.day) * 24 + t.hour) * 60 +
    t.minute) * 60 + t.second) * 1000000 + t.microsecond)

def pad2 (n : Nat) : List Char :=
  [Nat.digitChar (n / 10), Nat.digitChar (n % 10)]

def pad4 (n : Nat) : List Char :=
  [Nat.digitChar (n / 1000), Nat.digitChar (n / 100 % 10),
   Nat.digitChar (n / 10 % 10), Nat.digitChar (n % 10)]

def pad6 (n : Nat) : List Char :=
  [Nat.digitChar (n / 100000), Nat.digitChar (n / 10000 % 10),
   Nat.digitChar (n / 1000 % 10), Nat.digitChar (n / 100 % 10),
   Nat.digitChar (n / 10 % 10), Nat.digitChar (n % 10)]

/-- Numeric value of a decimal digit character. -/
def dval (c : Char) : Nat := c.toNat - 48

def parse2 (a b : Char) : Option Nat :=
  if a.isDigit && b.isDigit then some (dval a * 10 + dval b) else none

def parse4 (a b c d : Char) : Option Nat :=
  if a.isDigit && b.isDigit && c.isDigit && d.isDigit then
    some (((dval a * 10 + dval b) * 10 + dval c) * 10 + dval d)
  else none

def parse6 (a b c d e f : Char) : Option Nat :=
  if a.isDigit && b.isDigit && c.isDigit && d.isDigit && e.isDigit && f.isDigit then
    some (((((dval a * 10 + dval b) * 10 + dval c) * 10 + dval d) * 10 + dval e) * 10 + dval f)
  else none

/-- The fractional-seconds suffix: absent means `microsecond = 0`. -/
def parseFrac : List Char → Option Nat
  | [] => some 0
  | c :: u1 :: u2 :: u3 :: u4 :: u5 :: u6 :: [] =>
      if c = '.' then parse6 u1 u2 u3 u4 u5 u6 else none
  | _ => none

/-- Character-list form of `datetime.isoformat()`. -/
def isoChars (t : PyDateTime) : List Char :=
  pad4 t.year ++ '-' :: pad2 t.month ++ '-' :: pad2 t.day ++
  'T' :: pad2 t.hour ++ ':' :: pad2 t.minute ++ ':' :: pad2 t.second ++
  (if t.microsecond = 0 then [] else '.' :: pad6 t.microsecond)

/-- Character-list form of `datetime.fromisoformat`, restricted to the
shapes `isoformat` can emit; `none` models the `ValueError` the Python
function raises on malformed input. -/
def fromisoChars (l : List Char) : Option PyDateTime :=
  match l with
  | y1 :: y2 :: y3 :: y4 :: sA :: m1 :: m2 :: sB :: d1 :: d2 :: sC ::
    h1 :: h2 :: sD :: n1 :: n2 :: sE :: s1 :: s2 :: rest =>
      if sA = '-' ∧ sB = '-' ∧ sC = 'T' ∧ sD = ':' ∧ sE = ':' then
        (parse4 y1 y2 y3 y4).bind fun y =>
        (parse2 m1 m2).bind fun mo =>
        (parse2 d1 d2).bind fun d =>
        (parse2 h1 h2).bind fun h =>
        (parse2 n1 n2).bind fun mi =>
        (parse2 s1 s2).bind fun s =>
        (parseFrac rest).bind fun us =>
        some ⟨y, mo, d, h, mi, s, us⟩
      else none
  | _ => none

def isoformat (t : PyDateTime) : String := ⟨isoChars t⟩

def fromisoformat (s : String) : Option PyDateTime := fromisoChars s.data

end PyDateTime

/-! ## Python string primitives

Computable models of the `str` operations the code uses, written as
structural recursion over the character list so that every one of them
evaluates inside the kernel. -/

/-- Python `str.strip()`: drop whitespace from both ends. -/
def stripChars (l : List Char) : List Char :=
  ((l.dropWhile Char.isWhitespace).reverse.dropWhile Char.isWhitespace).reverse

/-- Python `str.strip()` on strings. -/
def pyStrip (s : String) : String := ⟨stripChars s.data⟩

/-- Python `str.split(sep)` for a one-character separator, on character
lists; like Python's `split`, it keeps empty pieces and returns one
piece for the empty string. -/
def splitChar (c : Char) : List Char → List (List Char)
  | [] => [[]]
  | x :: xs =>
      let r := splitChar c xs
      if x = c then [] :: r
      else
        match r with
        | [] => [[x]]
        | h :: t => (x :: h) :: t

/-- Python `s.split('\n')` on strings. -/
def splitLines (s : String) : List String :=
  (splitChar '\n' s.data).map fun l => ⟨l⟩

/-- Python slicing `s[:n]` (by code point). -/
def pyTake (n : Nat) (s : String) : String := ⟨s.data.take n⟩

/-- Python `len(s)` (code points). -/
def pyLen (s : String) : Nat := s.data.length

/-- Python `str.lower()` (ASCII case folding). -/
def pyLower (s : String) : String := ⟨s.data.map Char.toLower⟩

/-! ## The Note entity (`src/core/note.py`)

The HTML-to-plain-text rendering (`QTextDocument.toPlainText`) is an
external Qt collaborator; every definition that needs it takes it as an
explicit `render : String → String` parameter. -/

structure Note where
  id : String
  title : String
  content : String
  created_at : PyDateTime
  modified_at : PyDateTime
  is_favorite : Bool
deriving DecidableEq

namespace Note

/-- Model of `Note._extract_title`: first line of the plain-text rendering,
truncated to 50 characters with an ellipsis marker, or `"Untitled"`. -/
def extract_title (render : String → String) (content : String) : String :=
  if content = "" ∨ pyStrip content = "" then "Untitled"
  else
    let plain_text := pyStrip (render content)
    if plain_text = "" then "Untitled"
    else
      let first_line := (splitLines plain_text).headD ""
      let title := pyTake 50 first_line
      let title := if pyLen first_line > 50 then title ++ "..." else title
      if title = "" then "Untitled" else title

/-- A fresh `Note()` built from the dataclass defaults; `fresh` stands for
the generated `uuid4` string and `now` for `datetime.now()`. -/
def create (fresh : String) (now : PyDateTime) : Note :=
  { id := fresh, title := "Untitled", content := "", created_at := now,
    modified_at := now, is_favorite := false }

/-- Model of `Note.update_content`: sets content, refreshes `modified_at`,
re-derives the title. -/
def update_content (render : String → String) (n : Note) (content : String)
    (now : PyDateTime) : Note :=
  { n with
    content := content,
    modified_at := now,
    title := extract_title render content }

/-- The dictionary produced by `Note.to_dict` / consumed by
`Note.from_dict`: each field is optional because `from_dict` tolerates
missing keys (`data.get` with defaults). -/
structure NoteDict where
  id : Option String
  title : Option String
  content : Option String
  created_at : Option String
  modified_at : Option String
  is_favorite : Option Bool
deriving DecidableEq

/-- Model of `Note.to_dict`: timestamps encoded with `isoformat`. -/
def to_dict (n : Note) : NoteDict :=
  { id := some n.id, title := some n.title, content := some n.content,
    created_at := some (PyDateTime.isoformat n.created_at),
    modified_at := some (PyDateTime.isoformat n.modified_at),
    is_favorite := some n.is_favorite }

/-- Model of `Note.from_dict`: missing fields fall back to the defaults
(`uuid4`, `"Untitled"`, `""`, `datetime.now()`, `False`); a present but
unparsable timestamp makes `datetime.fromisoformat` raise, modelled as
`none`. -/
def from_dict (data : NoteDict) (fresh : String) (now : PyDateTime) :
    Option Note :=
  (match data.created_at with
   | some s => PyDateTime.fromisoformat s
   | none => some now).bind fun ca =>
  (match data.modified_at with
   | some s => PyDateTime.fromisoformat s
   | none => some now).bind fun ma =>
  some { id := data.id.getD fresh, title := data.title.getD "Untitled",
         content := data.content.getD "", created_at := ca,
         modified_at := ma, is_favorite := data.is_favorite.getD false }

end Note

/-! ## The storage engine (`src/core/storage.py`)

The file system under the storage directory is a map from file name to
file text.  `json.dump`/`json.load` are the Python standard library;
the encoder is modelled concretely by `noteJson` (what `save_note`
writes) and the decoder abstractly by a `jparse : String → Option
Note.NoteDict` parameter (`none` models a `json.JSONDecodeError` or a
non-dict payload, both of which the code catches). -/

namespace StorageManager

/-- Contents of the storage directory: file name to file text. -/
def FileSys := String → Option String

/-- Minimal JSON string escaping as performed by `json.dump` with
`ensure_ascii=False`. -/
def jsonEscape (s : String) : String :=
  ⟨s.data.flatMap fun c =>
    if c = '"' then ['\\', '"']
    else if c = '\\' then ['\\', '\\']
    else if c = '\n' then ['\\', 'n']
    else if c = '\t' then ['\\', 't']
    else if c = '\r' then ['\\', 'r']
    else [c]⟩

/-- The exact text `json.dump(note.to_dict(), f, indent=2,
ensure_ascii=False)` produces for a note. -/
def noteJson (n : Note) : String :=
  "\x7b\n  \"id\": \"" ++ jsonEscape n.id ++
  "\",\n  \"title\": \"" ++ jsonEscape n.title ++
  "\",\n  \"content\": \"" ++ jsonEscape n.content ++
  "\",\n  \"created_at\": \"" ++ jsonEscape (PyDateTime.isoformat n.created_at) ++
  "\",\n  \"modified_at\": \"" ++ jsonEscape (PyDateTime.isoformat n.modified_at) ++
  "\",\n  \"is_favorite\": " ++ (if n.is_favorite then "true" else "false") ++
  "\n\x7d"

/-- Model of `StorageManager.save_note` with an explicit fault model.  The code
opens `<id>.json` with mode `'w'` — which truncates the file in place —
and then streams the JSON into it; `failAfter = none` is the fault-free
run (returns `True`), `failAfter = some k` is an I/O failure after `k`
characters were written: the exception is caught, `False` is returned,
and the file holds the prefix written so far. -/
def save_note (fs : FileSys) (n : Note) (failAfter : Option Nat) :
    FileSys × Bool :=
  let path := n.id ++ ".json"
  let data := noteJson n
  match failAfter with
  | none => (fun p => if p = path then some data else fs p, true)
  | some k => (fun p => if p = path then some (pyTake k data) else fs p, false)

/-- Model of `StorageManager.load_note`: `None` when the file is absent, `None`
when `json.load` or `Note.from_dict` raises (caught and logged). -/
def load_note (jparse : String → Option Note.NoteDict) (fs : FileSys)
    (note_id : String) (fresh : String) (now : PyDateTime) : Option Note :=
  match fs (note_id ++ ".json") with
  | none => none
  | some text =>
      match jparse text with
      | none => none
      | some data => Note.from_dict data fresh now

/-- Descending recency: the order `load_all_notes` sorts by
(`reverse=True` on the `modified_at` key). -/
def byRecencyDesc (a b : Note) : Prop :=
  b.modified_at.key ≤ a.modified_at.key

instance : DecidableRel byRecencyDesc := fun _ _ =>
  inferInstanceAs (Decidable (_ ≤ _))

instance : IsTotal Note byRecencyDesc :=
  ⟨fun a b => Nat.le_total b.modified_at.key a.modified_at.key⟩

instance : IsTrans Note byRecencyDesc :=
  ⟨fun _ _ _ h1 h2 => Nat.le_trans h2 h1⟩

/-- Model of `StorageManager.load_all_notes`: `texts` are the contents of the
`*.json` files the glob finds; each is deserialized independently,
failures are skipped, and the survivors are sorted by modification
time, newest first (Python's stable `list.sort` with `reverse=True`,
modelled by a stable insertion sort). -/
def load_all_notes (jparse : String → Option Note.NoteDict)
    (texts : List String) (fresh : String) (now : PyDateTime) : List Note :=
  let notes := texts.filterMap fun text =>
    (jparse text).bind fun data => Note.from_dict data fresh now
  List.insertionSort byRecencyDesc notes

end StorageManager

/-! ## The auto-save scheduler (`src/core/auto_save.py`)

The single-shot `QTimer` is modelled by an optional absolute deadline in
virtual (millisecond) time; `timer.start(delay_ms)` at time `t` sets the
deadline to `t + delay_ms`, `timer.stop()` clears it.  A run processes a
time-stamped event trace on the single UI thread: before each event any
deadline already due fires the save callback, and after the trace the
remaining deadline (if any) fires when it elapses.  The value a run
returns is the list of times the save callback was invoked. -/

namespace AutoSaveManager

structure State where
  enabled : Bool
  delayMs : Nat
  deadline : Option Nat
deriving DecidableEq

/-- Constructor state: `_is_enabled = True`, timer not running. -/
def init (delayMs : Nat) : State :=
  { enabled := true, delayMs := delayMs, deadline := none }

/-- Model of `trigger()` at time `t`: no-op when disabled, else restart the
debounce timer (`stop` then `start(delay_ms)`). -/
def trigger (t : Nat) (s : State) : State :=
  if s.enabled then { s with deadline := some (t + s.delayMs) } else s

/-- Model of `save_now()` at time `t`: stop the timer, then invoke the callback
immediately (it does not consult `_is_enabled`). -/
def save_now (t : Nat) (s : State) : State × List Nat :=
  ({ s with deadline := none }, [t])

/-- Model of `disable()`: suppress future triggers and cancel any pending save. -/
def disable (s : State) : State :=
  { s with enabled := false, deadline := none }

/-- Model of `enable()`. -/
def enable (s : State) : State :=
  { s with enabled := true }

/-- Model of `set_delay(ms)`: affects subsequent triggers only. -/
def set_delay (d : Nat) (s : State) : State :=
  { s with delayMs := d }

inductive Event where
  | trigger (t : Nat)
  | saveNow (t : Nat)
  | disable (t : Nat)
  | enable (t : Nat)
  | setDelay (t : Nat) (d : Nat)
deriving DecidableEq

/-- Fire a deadline already due at time `t` (the event loop delivers the
timeout before any later event). -/
def flushDue (s : State) (t : Nat) : State × List Nat :=
  match s.deadline with
  | some d => if d ≤ t then ({ s with deadline := none }, [d]) else (s, [])
  | none => (s, [])

def stepEvent (s : State) : Event → State × List Nat
  | .trigger t =>
      let p := flushDue s t
      (trigger t p.1, p.2)
  | .saveNow t =>
      let p := flushDue s t
      let q := save_now t p.1
      (q.1, p.2 ++ q.2)
  | .disable t =>
      let p := flushDue s t
      (disable p.1, p.2)
  | .enable t =>
      let p := flushDue s t
      (enable p.1, p.2)
  | .setDelay t d =>
      let p := flushDue s t
      (set_delay d p.1, p.2)

/-- Process an event trace, then let any remaining deadline elapse;
returns the sequence of times the save callback ran. -/
def run (s : State) : List Event → List Nat
  | [] => match s.deadline with
          | some d => [d]
          | none => []
  | e :: es =>
      let p := stepEvent s e
      p.2 ++ run p.1 es

end AutoSaveManager

/-! ## The notes list search filter (`src/ui/notes_list.py`)

The list widget's items in display order, each carrying its note and its
hidden flag.  `_on_search_changed` recomputes every item's hidden flag
and touches nothing else; the HTML-to-plain-text conversion is the same
external `render` collaborator as in `Note.extract_title`. -/

namespace NotesList

/-- Predicate `headMatch q s`: `q` occurs at the start of `s`. -/
def headMatch : List Char → List Char → Bool
  | [], _ => true
  | _ :: _, [] => false
  | a :: q, b :: s => a = b && headMatch q s

/-- Python's `q in s` substring test, on the character lists. -/
def occursInChars (q : List Char) : List Char → Bool
  | [] => headMatch q []
  | b :: s => headMatch q (b :: s) || occursInChars q s

/-- Python's `q in s` on strings. -/
def occursIn (q s : String) : Bool := occursInChars q.data s.data

/-- Proposition that `q` occurs as a contiguous substring of `s`. -/
def Occurs (q s : String) : Prop :=
  ∃ l r, s.data = l ++ q.data ++ r

/-- Model of `NotesList._on_search_changed(text)` restricted to its effect on the
items: `query = text.lower().strip()`; an item is hidden iff the query
is nonempty and matches neither the lowercased title nor the lowercased
plain-text rendering of the content. -/
def on_search_changed (render : String → String) (text : String)
    (items : List (Note × Bool)) : List (Note × Bool) :=
  let query := pyStrip (pyLower text)
  items.map fun it =>
    let plain_content := render it.1.content
    let matched := occursIn query (pyLower it.1.title) ||
                   occursIn query (pyLower plain_content)
    (it.1, if query = "" then false else !matched)

end NotesList


/-! ## Concrete fixtures used by witnesses and counterexamples -/

def dt0 : PyDateTime := ⟨2024, 1, 2, 3, 4, 5, 0⟩

def dt1 : PyDateTime := ⟨2024, 6, 7, 8, 9, 10, 123456⟩

/-- A note fixture with both timestamp shapes (with and without a
fractional part). -/
def nRT : Note := ⟨"id0", "T", "line one", dt0, dt1, true⟩

/-- A serialized record whose stored title disagrees with the title the
derivation rule would produce for its (empty) content. -/
def dataX : Note.NoteDict := ⟨none, some "X", some "", none, none, none⟩

/-- The note `Note.from_dict dataX "f" dt0` produces. -/
def noteX : Note := ⟨"f", "X", "", dt0, dt0, false⟩

/-- A storage directory with no files at all. -/
def fsAbsent : StorageManager.FileSys := fun _ => none

/-- A storage directory where `a.json` exists but holds text `json.load`
rejects. -/
def fsCorrupt : StorageManager.FileSys := fun p =>
  if p = "a.json" then some "garbage" else none

/-- A JSON decoder under which every text is undeserializable. -/
def jparse0 : String → Option Note.NoteDict := fun _ => none

def oldNote : Note := ⟨"n1", "Old", "old content", dt0, dt0, false⟩

def newNote : Note := ⟨"n1", "New", "new content", dt1, dt1, false⟩

/-- A storage directory already holding a valid persisted file for note
`n1`. -/
def fs0 : StorageManager.FileSys := fun p =>
  if p = "n1.json" then some (StorageManager.noteJson oldNote) else none

/-- A scheduler state with a pending save deadline at t=1400ms. -/
def sPend : AutoSaveManager.State := ⟨true, 1000, some 1400⟩

/-- A 60-character single-line string (first line longer than 50). -/
def longLine : String :=
  "aaaaaaaaaaaaaaaaaaaaaaaaaaaaaaaaaaaaaaaaaaaaaaaaaaaaaaaaaaaa"

/-- A note whose title is a single lowercase letter and whose content is
empty. -/
def noteA : Note := ⟨"a1", "a", "", dt0, dt0, false⟩

/-! ## Helper lemmas -/

namespace PyDateTime

theorem digitChar_isDigit {d : Nat} (h : d < 10) :
    (Nat.digitChar d).isDigit = true := by
  revert h; revert d; decide

theorem dval_digitChar {d : Nat} (h : d < 10) : dval (Nat.digitChar d) = d := by
  revert h; revert d; decide

theorem parse2_pad2 {n : Nat} (h : n < 100) :
    parse2 (Nat.digitChar (n / 10)) (Nat.digitChar (n % 10)) = some n := by
  have h1 : n / 10 < 10 := by omega
  have h2 : n % 10 < 10 := by omega
  simp [parse2, digitChar_isDigit h1, digitChar_isDigit h2,
    dval_digitChar h1, dval_digitChar h2]
  omega

theorem parse4_pad4 {n : Nat} (h : n < 10000) :
    parse4 (Nat.digitChar (n / 1000)) (Nat.digitChar (n / 100 % 10))
      (Nat.digitChar (n / 10 % 10)) (Nat.digitChar (n % 10)) = some n := by
  have h1 : n / 1000 < 10 := by omega
  have h2 : n / 100 % 10 < 10 := by omega
  have h3 : n / 10 % 10 < 10 := by omega
  have h4 : n % 10 < 10 := by omega
  simp [parse4, digitChar_isDigit h1, digitChar_isDigit h2, digitChar_isDigit h3,
    digitChar_isDigit h4, dval_digitChar h1, dval_digitChar h2,
    dval_digitChar h3, dval_digitChar h4]
  omega

theorem parse6_pad6 {n : Nat} (h : n < 1000000) :
    parse6 (Nat.digitChar (n / 100000)) (Nat.digitChar (n / 10000 % 10))
      (Nat.digitChar (n / 1000 % 10)) (Nat.digitChar (n / 100 % 10))
      (Nat.digitChar (n / 10 % 10)) (Nat.digitChar (n % 10)) = some n := by
  have h1 : n / 100000 < 10 := by omega
  have h2 : n / 10000 % 10 < 10 := by omega
  have h3 : n / 1000 % 10 < 10 := by omega
  have h4 : n / 100 % 10 < 10 := by omega
  have h5 : n / 10 % 10 < 10 := by omega
  have h6 : n % 10 < 10 := by omega
  simp [parse6, digitChar_isDigit h1, digitChar_isDigit h2, digitChar_isDigit h3,
    digitChar_isDigit h4, digitChar_isDigit h5, digitChar_isDigit h6,
    dval_digitChar h1, dval_digitChar h2, dval_digitChar h3,
    dval_digitChar h4, dval_digitChar h5, dval_digitChar h6]
  omega

theorem fromisoChars_shape (y1 y2 y3 y4 m1 m2 d1 d2 h1 h2 n1 n2 s1 s2 : Char)
    (rest : List Char) :
    fromisoChars (y1 :: y2 :: y3 :: y4 :: '-' :: m1 :: m2 :: '-' :: d1 :: d2 ::
        'T' :: h1 :: h2 :: ':' :: n1 :: n2 :: ':' :: s1 :: s2 :: rest) =
      ((parse4 y1 y2 y3 y4).bind fun y =>
       (parse2 m1 m2).bind fun mo =>
       (parse2 d1 d2).bind fun d =>
       (parse2 h1 h2).bind fun h =>
       (parse2 n1 n2).bind fun mi =>
       (parse2 s1 s2).bind fun s =>
       (parseFrac rest).bind fun us =>
       some ⟨y, mo, d, h, mi, s, us⟩) := rfl

theorem parseFrac_dot (a b c d e f : Char) :
    parseFrac ('.' :: a :: b :: c :: d :: e :: f :: []) = parse6 a b c d e f := rfl

/-- The ISO-8601 codec round-trips every valid timestamp losslessly. -/
theorem fromiso_iso {t : PyDateTime} (h : t.Valid) :
    fromisoChars (isoChars t) = some t := by
  obtain ⟨_, hy, _, hmo, _, hd, hh, hmi, hs, hus⟩ := h
  have hy4 : t.year < 10000 := by omega
  have hmo2 : t.month < 100 := by omega
  have hd2 : t.day < 100 := by omega
  have hh2 : t.hour < 100 := by omega
  have hmi2 : t.minute < 100 := by omega
  have hs2 : t.second < 100 := by omega
  have hus6 : t.microsecond < 1000000 := by omega
  by_cases hz : t.microsecond = 0
  · have hiso : isoChars t =
        Nat.digitChar (t.year / 1000) :: Nat.digitChar (t.year / 100 % 10) ::
        Nat.digitChar (t.year / 10 % 10) :: Nat.digitChar (t.year % 10) :: '-' ::
        Nat.digitChar (t.month / 10) :: Nat.digitChar (t.month % 10) :: '-' ::
        Nat.digitChar (t.day / 10) :: Nat.digitChar (t.day % 10) :: 'T' ::
        Nat.digitChar (t.hour / 10) :: Nat.digitChar (t.hour % 10) :: ':' ::
        Nat.digitChar (t.minute / 10) :: Nat.digitChar (t.minute % 10) :: ':' ::
        Nat.digitChar (t.second / 10) :: Nat.digitChar (t.second % 10) :: [] := by
      simp [isoChars, pad4, pad2, hz]
    rw [hiso, fromisoChars_shape, parse4_pad4 hy4, parse2_pad2 hmo2,
      parse2_pad2 hd2, parse2_pad2 hh2, parse2_pad2 hmi2, parse2_pad2 hs2]
    simp [parseFrac, hz.symm]
  · have hiso : isoChars t =
        Nat.digitChar (t.year / 1000) :: Nat.digitChar (t.year / 100 % 10) ::
        Nat.digitChar (t.year / 10 % 10) :: Nat.digitChar (t.year % 10) :: '-' ::
        Nat.digitChar (t.month / 10) :: Nat.digitChar (t.month % 10) :: '-' ::
        Nat.digitChar (t.day / 10) :: Nat.digitChar (t.day % 10) :: 'T' ::
        Nat.digitChar (t.hour / 10) :: Nat.digitChar (t.hour % 10) :: ':' ::
        Nat.digitChar (t.minute / 10) :: Nat.digitChar (t.minute % 10) :: ':' ::
        Nat.digitChar (t.second / 10) :: Nat.digitChar (t.second % 10) :: '.' ::
        Nat.digitChar (t.microsecond / 100000) ::
        Nat.digitChar (t.microsecond / 10000 % 10) ::
        Nat.digitChar (t.microsecond / 1000 % 10) ::
        Nat.digitChar (t.microsecond / 100 % 10) ::
        Nat.digitChar (t.microsecond / 10 % 10) ::
        Nat.digitChar (t.microsecond % 10) :: [] := by
      simp [isoChars, pad4, pad2, pad6, hz]
    rw [hiso, fromisoChars_shape, parse4_pad4 hy4, parse2_pad2 hmo2,
      parse2_pad2 hd2, parse2_pad2 hh2, parse2_pad2 hmi2, parse2_pad2 hs2]
    simp [parseFrac_dot, parse6_pad6 hus6]

theorem fromisoformat_isoformat {t : PyDateTime} (h : t.Valid) :
    fromisoformat (isoformat t) = some t :=
  fromiso_iso h

end PyDateTime

namespace NotesList

theorem headMatch_iff (q s : List Char) :
    headMatch q s = true ↔ ∃ r, s = q ++ r := by
  induction q generalizing s with
  | nil => simp [headMatch]
  | cons a q ih =>
      cases s with
      | nil =>
          simp [headMatch]
      | cons b s =>
          simp only [headMatch, Bool.and_eq_true, decide_eq_true_eq, ih,
            List.cons_append, List.cons.injEq]
          constructor
          · rintro ⟨h1, r, h2⟩
            exact ⟨r, h1.symm, h2⟩
          · rintro ⟨r, h1, h2⟩
            exact ⟨h1.symm, r, h2⟩

theorem occursInChars_iff (q s : List Char) :
    occursInChars q s = true ↔ ∃ l r, s = l ++ q ++ r := by
  induction s with
  | nil =>
      simp only [occursInChars, headMatch_iff]
      constructor
      · rintro ⟨r, h⟩
        exact ⟨[], r, by simpa using h⟩
      · rintro ⟨l, r, h⟩
        exact ⟨r, by
          rcases List.append_eq_nil.mp
            (List.append_eq_nil.mp h.symm).1 with ⟨h1, h2⟩
          simp [h1, h2, (List.append_eq_nil.mp h.symm).2]⟩
  | cons b s ih =>
      simp only [occursInChars, Bool.or_eq_true, headMatch_iff, ih]
      constructor
      · rintro (⟨r, h⟩ | ⟨l, r, h⟩)
        · exact ⟨[], r, by simpa using h⟩
        · exact ⟨b :: l, r, by simp [h]⟩
      · rintro ⟨l, r, h⟩
        cases l with
        | nil => exact Or.inl ⟨r, by simpa using h⟩
        | cons x l =>
            right
            refine ⟨l, r, ?_⟩
            simp only [List.cons_append, List.cons.injEq] at h
            exact h.2
  
/-- Reflection of the Bool-level substring test into `Occurs`. -/
theorem occursIn_iff (q s : String) : occursIn q s = true ↔ Occurs q s := by
  constructor
  · intro h
    rcases (occursInChars_iff q.data s.data).mp h with ⟨l, r, h⟩
    exact ⟨l, r, h⟩
  · rintro ⟨l, r, h⟩
    exact (occursInChars_iff q.data s.data).mpr ⟨l, r, h⟩


theorem occursIn_eq_false_iff (q s : String) :
    occursIn q s = false ↔ ¬ Occurs q s := by
  rw [← occursIn_iff]
  cases occursIn q s <;> simp

end NotesList

/-! ## Claim theorems -/

/-- C6: for every Note `n`, `deserialize(serialize(n))` equals `n`
field-for-field (id, title, content, created_at, modified_at,
is_favorite); the timestamps survive the ISO-8601 encoding losslessly. -/
theorem c6_serialize_roundtrip (n : Note) (fresh : String) (now : PyDateTime)
    (hc : n.created_at.Valid) (hm : n.modified_at.Valid) :
    Note.from_dict (Note.to_dict n) fresh now = some n := by
  simp [Note.to_dict, Note.from_dict, PyDateTime.fromisoformat_isoformat hc,
    PyDateTime.fromisoformat_isoformat hm]

/-- Witness for C6 at a concrete note carrying both timestamp shapes. -/
theorem c6_serialize_roundtrip_witness :
    Note.from_dict (Note.to_dict nRT) "f" dt0 = some nRT :=
  c6_serialize_roundtrip nRT "f" dt0 (by decide) (by decide)

/-- C7: the title `update_content(c)` derives satisfies the three spec
cases: empty content gives `"Untitled"`; content whose plain-text
rendering is `"Hello\nworld"` gives `"Hello"`; content whose first-line
plain text exceeds 50 characters gives exactly its first 50 characters
followed by the ellipsis marker `"..."`. -/
theorem c7_title_derivation (render : String → String) :
    (∀ (n : Note) (now : PyDateTime),
      (Note.update_content render n "" now).title = "Untitled") ∧
    (∀ (n : Note) (c : String) (now : PyDateTime), pyStrip c ≠ "" →
      render c = "Hello\nworld" →
      (Note.update_content render n c now).title = "Hello") ∧
    (∀ (n : Note) (c fl : String) (now : PyDateTime), pyStrip c ≠ "" →
      (splitLines (pyStrip (render c))).headD "" = fl → pyLen fl > 50 →
      (Note.update_content render n c now).title = pyTake 50 fl ++ "...") := by
  refine ⟨?_, ?_, ?_⟩
  · intro n now
    simp [Note.update_content, Note.extract_title]
  · intro n c now hc hr
    have hne : ¬(c = "" ∨ pyStrip c = "") := by
      rintro (rfl | h)
      · exact hc (by decide)
      · exact hc h
    show Note.extract_title render c = "Hello"
    unfold Note.extract_title
    rw [if_neg hne, hr]
    decide
  · intro n c fl now hc hfl hlen
    have hne : ¬(c = "" ∨ pyStrip c = "") := by
      rintro (rfl | h)
      · exact hc (by decide)
      · exact hc h
    have hp : ¬(pyStrip (render c) = "") := by
      intro h
      rw [h] at hfl
      have h0 : (splitLines "").headD "" = "" := by decide
      rw [h0] at hfl
      rw [← hfl] at hlen
      exact absurd hlen (by decide)
    have hne2 : ¬(pyTake 50 fl ++ "..." = "") := by
      intro h
      have hd := congrArg String.data h
      rw [String.data_append] at hd
      rcases List.append_eq_nil.mp hd with ⟨_, h2⟩
      exact absurd h2 (by decide)
    show Note.extract_title render c = pyTake 50 fl ++ "..."
    simp only [Note.extract_title, if_neg hne, if_neg hp, hfl, if_pos hlen,
      if_neg hne2]

/-- Witness for C7 at concrete renderings and contents. -/
theorem c7_title_derivation_witness :
    (Note.update_content (fun _ => "") noteA "" dt0).title = "Untitled" ∧
    (Note.update_content (fun _ => "Hello\nworld") noteA "x" dt0).title =
      "Hello" ∧
    (Note.update_content (fun _ => longLine) noteA "x" dt0).title =
      pyTake 50 longLine ++ "..." :=
  ⟨(c7_title_derivation (fun _ => "")).1 noteA dt0,
   (c7_title_derivation (fun _ => "Hello\nworld")).2.1 noteA "x" dt0
     (by decide) rfl,
   (c7_title_derivation (fun _ => longLine)).2.2 noteA "x" longLine dt0
     (by decide) (by decide) (by decide)⟩

/-- C3 (amended): the title is a function of the content for notes
produced by `create()` and `update_content`; `from_dict`, however,
takes the stored `title` field as-is (defaulting to `"Untitled"` when
missing) and does not re-derive it from the content. -/
theorem c3_title_function_of_content (render : String → String) :
    (∀ (fresh : String) (now : PyDateTime),
      (Note.create fresh now).title =
        Note.extract_title render (Note.create fresh now).content) ∧
    (∀ (n : Note) (c : String) (now : PyDateTime),
      (Note.update_content render n c now).title =
        Note.extract_title render (Note.update_content render n c now).content) ∧
    (∀ (data : Note.NoteDict) (fresh : String) (now : PyDateTime) (n : Note),
      Note.from_dict data fresh now = some n →
        n.title = data.title.getD "Untitled") := by
  refine ⟨?_, ?_, ?_⟩
  · intro fresh now
    simp [Note.create, Note.extract_title]
  · intro n c now
    rfl
  · intro data fresh now n h
    simp only [Note.from_dict] at h
    rw [Option.bind_eq_some] at h
    obtain ⟨ca, _, h⟩ := h
    rw [Option.bind_eq_some] at h
    obtain ⟨ma, _, h⟩ := h
    rw [Option.some.injEq] at h
    rw [← h]

/-- Witness for C3 (amended) at a fresh note and a concrete record. -/
theorem c3_title_function_of_content_witness :
    (Note.create "f" dt0).title =
      Note.extract_title (fun s => s) (Note.create "f" dt0).content ∧
    noteX.title = dataX.title.getD "Untitled" :=
  ⟨(c3_title_function_of_content (fun s => s)).1 "f" dt0,
   (c3_title_function_of_content (fun s => s)).2.2 dataX "f" dt0 noteX
     (by decide)⟩

/-- C3 counterexample: deserializing a record whose stored title is
`"X"` but whose content is empty yields a note whose title is not the
derivation of its content (which would be `"Untitled"`). -/
theorem c3_counterexample :
    Note.from_dict dataX "f" dt0 = some noteX ∧
    noteX.title ≠ Note.extract_title (fun s => s) noteX.content := by
  exact ⟨by decide, by decide⟩

/-- C2 (amended): `load_note` returns `None` when the backing file is
absent, and the same `None` when the file is present but
undeserializable (the corrupt outcome is surfaced as absence, not as a
distinct value); when deserialization succeeds it returns the parsed
note, and it never raises (it is total). -/
theorem c2_load_outcomes (jparse : String → Option Note.NoteDict)
    (fs : StorageManager.FileSys) (note_id fresh : String) (now : PyDateTime) :
    (fs (note_id ++ ".json") = none →
      StorageManager.load_note jparse fs note_id fresh now = none) ∧
    (∀ text, fs (note_id ++ ".json") = some text → jparse text = none →
      StorageManager.load_note jparse fs note_id fresh now = none) ∧
    (∀ text data, fs (note_id ++ ".json") = some text →
      jparse text = some data →
      StorageManager.load_note jparse fs note_id fresh now =
        Note.from_dict data fresh now) := by
  refine ⟨?_, ?_, ?_⟩
  · intro h
    simp [StorageManager.load_note, h]
  · intro text h1 h2
    simp [StorageManager.load_note, h1, h2]
  · intro text data h1 h2
    simp [StorageManager.load_note, h1, h2]

/-- Witness for C2 (amended) on concrete absent and corrupt stores. -/
theorem c2_load_outcomes_witness :
    StorageManager.load_note jparse0 fsAbsent "a" "f" dt0 = none ∧
    StorageManager.load_note jparse0 fsCorrupt "a" "f" dt0 = none :=
  ⟨(c2_load_outcomes jparse0 fsAbsent "a" "f" dt0).1 rfl,
   (c2_load_outcomes jparse0 fsCorrupt "a" "f" dt0).2.1 "garbage"
     (by decide) rfl⟩

/-- C2 counterexample: with the file for `"a"` present but
undeserializable, `load_note` returns the very same outcome (`none`) as
when no file exists at all, so the corrupt outcome is not
distinguishable by the caller from not-found. -/
theorem c2_counterexample :
    StorageManager.load_note jparse0 fsCorrupt "a" "f" dt0 =
      StorageManager.load_note jparse0 fsAbsent "a" "f" dt0 ∧
    fsCorrupt "a.json" = some "garbage" ∧
    fsAbsent "a.json" = none := by
  exact ⟨by decide, by decide, rfl⟩

/-- C8: `load_all_notes` returns exactly the notes of the
deserializable files (each corrupt file is skipped without aborting the
load — the result is a permutation of the per-file successes) and the
returned list is sorted by `modified_at` descending. -/
theorem c8_load_all_partial_sorted (jparse : String → Option Note.NoteDict)
    (texts : List String) (fresh : String) (now : PyDateTime) :
    (StorageManager.load_all_notes jparse texts fresh now).Perm
      (texts.filterMap fun text =>
        (jparse text).bind fun data => Note.from_dict data fresh now) ∧
    List.Sorted StorageManager.byRecencyDesc
      (StorageManager.load_all_notes jparse texts fresh now) := by
  constructor
  · exact List.perm_insertionSort _ _
  · exact List.sorted_insertionSort _ _

/-- C4: every `trigger()` on an enabled scheduler restarts the idle
countdown to `t + delay`; the burst at t=0, 200, 400 ms with a 1000 ms
delay fires the save callback exactly once, at t=1400 ms; and a
`trigger()` while disabled is a no-op. -/
theorem c4_debounce :
    (∀ (s : AutoSaveManager.State) (t : Nat), s.enabled = true →
      (AutoSaveManager.trigger t s).deadline = some (t + s.delayMs)) ∧
    AutoSaveManager.run (AutoSaveManager.init 1000)
      [AutoSaveManager.Event.trigger 0, AutoSaveManager.Event.trigger 200,
       AutoSaveManager.Event.trigger 400] = [1400] ∧
    (∀ (s : AutoSaveManager.State) (t : Nat), s.enabled = false →
      AutoSaveManager.trigger t s = s) := by
  refine ⟨?_, by decide, ?_⟩
  · intro s t hs
    simp [AutoSaveManager.trigger, hs]
  · intro s t hs
    simp [AutoSaveManager.trigger, hs]

/-- Witness for C4 at a concrete enabled and a concrete disabled state. -/
theorem c4_debounce_witness :
    (AutoSaveManager.trigger 5 (AutoSaveManager.init 1000)).deadline =
      some (5 + (AutoSaveManager.init 1000).delayMs) ∧
    AutoSaveManager.trigger 7
        (AutoSaveManager.disable (AutoSaveManager.init 1000)) =
      AutoSaveManager.disable (AutoSaveManager.init 1000) :=
  ⟨c4_debounce.1 (AutoSaveManager.init 1000) 5 rfl,
   c4_debounce.2.2 (AutoSaveManager.disable (AutoSaveManager.init 1000)) 7 rfl⟩

/-- C5: from any state with a pending deadline `d`, `save_now()` at
time `t < d` invokes the save callback exactly once, immediately at
`t`, and the cancelled deadline never fires afterwards (no
double-save). -/
theorem c5_save_now_no_double (s : AutoSaveManager.State) (t d : Nat)
    (hd : s.deadline = some d) (ht : t < d) :
    AutoSaveManager.run s [AutoSaveManager.Event.saveNow t] = [t] := by
  simp [AutoSaveManager.run, AutoSaveManager.stepEvent,
    AutoSaveManager.flushDue, AutoSaveManager.save_now, hd, Nat.not_le.mpr ht]

/-- Witness for C5: pending deadline 1400, `save_now` at 600 fires once. -/
theorem c5_save_now_no_double_witness :
    AutoSaveManager.run sPend [AutoSaveManager.Event.saveNow 600] = [600] :=
  c5_save_now_no_double sPend 600 1400 rfl (by decide)

/-- C10: after `disable()`, `save_now()` still invokes the save
callback exactly once immediately — the enabled flag suppresses only
`trigger()`, which remains a no-op on the disabled state. -/
theorem c10_save_now_ignores_disable (s : AutoSaveManager.State) (t u : Nat) :
    AutoSaveManager.run (AutoSaveManager.disable s)
      [AutoSaveManager.Event.saveNow t] = [t] ∧
    (AutoSaveManager.disable s).enabled = false ∧
    AutoSaveManager.trigger u (AutoSaveManager.disable s) =
      AutoSaveManager.disable s := by
  refine ⟨?_, rfl, ?_⟩
  · simp [AutoSaveManager.run, AutoSaveManager.stepEvent,
      AutoSaveManager.flushDue, AutoSaveManager.save_now,
      AutoSaveManager.disable]
  · simp [AutoSaveManager.trigger, AutoSaveManager.disable]

/-- C9 (amended): after a search, the sequence of notes in the list is
unchanged (only hidden flags move), and an item is visible iff the
query — lowercased and whitespace-stripped, as the code normalizes it —
is empty or occurs as a substring of the lowercased title or of the
lowercased plain-text rendering of the content. -/
theorem c9_search_projection (render : String → String) (text : String)
    (items : List (Note × Bool)) :
    (NotesList.on_search_changed render text items).map Prod.fst =
      items.map Prod.fst ∧
    ∀ p ∈ NotesList.on_search_changed render text items,
      (p.2 = false ↔ (pyStrip (pyLower text) = "" ∨
        NotesList.Occurs (pyStrip (pyLower text)) (pyLower p.1.title) ∨
        NotesList.Occurs (pyStrip (pyLower text))
          (pyLower (render p.1.content)))) := by
  constructor
  · simp [NotesList.on_search_changed]
  · intro p hp
    simp only [NotesList.on_search_changed, List.mem_map] at hp
    obtain ⟨it, hit, rfl⟩ := hp
    by_cases hq : pyStrip (pyLower text) = ""
    · simp [hq]
    · simp [hq, Bool.or_eq_true, NotesList.occursIn_iff,
        NotesList.occursIn_eq_false_iff]
      tauto

/-- Witness for C9 (amended) on a one-item list and query `"A"`. -/
theorem c9_search_projection_witness :
    ((noteA, false) : Note × Bool).2 = false ↔
      (pyStrip (pyLower "A") = "" ∨
       NotesList.Occurs (pyStrip (pyLower "A")) (pyLower noteA.title) ∨
       NotesList.Occurs (pyStrip (pyLower "A"))
         (pyLower ((fun s : String => s) noteA.content))) :=
  (c9_search_projection (fun s : String => s) "A" [(noteA, false)]).2
    (noteA, false) (by decide)

/-- C9 counterexample: with query text `"a "` (trailing space) the code
strips the query and shows the note titled `"a"`, although the literal
query `"a "` is not a (case-insensitive) substring of the title or the
rendered content — so matching is not plain substring of the query as
stated. -/
theorem c9_counterexample :
    NotesList.on_search_changed (fun s : String => s) "a " [(noteA, false)] =
      [(noteA, false)] ∧
    ¬ NotesList.Occurs (pyLower "a ") (pyLower noteA.title) ∧
    ¬ NotesList.Occurs (pyLower "a ")
        (pyLower ((fun s : String => s) noteA.content)) ∧
    pyLower "a " ≠ "" := by
  refine ⟨by decide, ?_, ?_, by decide⟩
  · intro h
    exact absurd ((NotesList.occursIn_iff _ _).mpr h) (by decide)
  · intro h
    exact absurd ((NotesList.occursIn_iff _ _).mpr h) (by decide)

/-- C1 (code bug): `save_note` opens the target with mode `'w'`, which
truncates in place; a failure after 0 bytes written leaves the file
empty — not the previously persisted contents — while returning
`False`.  The previously persisted file does not remain intact. -/
theorem c1_failed_save_truncates :
    (StorageManager.save_note fs0 newNote (some 0)).2 = false ∧
    (StorageManager.save_note fs0 newNote (some 0)).1 "n1.json" = some "" ∧
    fs0 "n1.json" ≠ some "" := by
  exact ⟨rfl, by decide, by decide⟩
